import Mathlib

/-!
# FabricServer: argument parsing, wiring and control loop

A shallow embedding of `src/server/FabricServer.h` and
`src/server/FabricServer.cxx` (version 5).

* Pure code (`readArgs` and the two `sscanf` calls it makes) is embedded as
  Lean functions on strings.
* Code that talks to the outside (SystemC kernel, UVM-Connect, the remote
  conduit package, the reset/time servers, the soft switch, the monitor and
  the simulation controller) is embedded as explicit state passing over a
  `State` that records every external call and every output line, with an
  `Env` that decides which external calls raise a C++ exception.

C strings are represented by the characters before their terminating NUL; a
character occupies as many `char`s as its UTF-8 encoding has bytes. The
scanners only look for ASCII characters (`-`, `=`, white space, sign, digits),
so scanning by character and scanning by `char` agree. Code whose behaviour C
leaves undefined (a scan that overruns one of the `BUFSIZ`-sized buffers of
`readArgs`) returns `none`.
-/

namespace Server

/-! ## Constants and globals of `FabricServer.h` -/

/-- The macro `#define NUMBER_OF_CLIENTS 4`. -/
def NUMBER_OF_CLIENTS : Nat := 4

/-- The macro `#define RESET_NS 100`. -/
def RESET_NS : Nat := 100

/-- The macro `#define NUMBER_OF_ETH_PORTS 4`. -/
def NUMBER_OF_ETH_PORTS : Nat := 4

/-- Socket address family `AF_UNIX` of the system socket headers (value 1 on
POSIX and Winsock). -/
def AF_UNIX : Nat := 1

/-- Socket address family `AF_INET` of the system socket headers (value 2 on
POSIX and Winsock). -/
def AF_INET : Nat := 2

/-- Width of `unsigned`: values of `domain` and `portNum` live modulo `2^32`. -/
def UINT_MOD : Nat := 2 ^ 32

/-- The macro `BUFSIZ` of `<stdio.h>`, the size of the two scan buffers of
`readArgs` (value 8192 in glibc). -/
def BUFSIZ : Nat := 8192

/-- The constant `const char *DEFAULT_SERVER_URL = "localhost";`. -/
def DEFAULT_SERVER_URL : String := "localhost"

/-- The mutable globals of `FabricServer.h`. -/
structure Globals where
  domain : Nat
  portNum : Nat
  commandFilePath : String
deriving DecidableEq, Repr

/-- Initial values of the globals:
`unsigned domain = AF_UNIX; unsigned portNum = 50101; string commandFilePath = "";`. -/
def Globals.init : Globals :=
  { domain := AF_UNIX, portNum := 50101, commandFilePath := "" }

/-! ## `readArgs` -/

/-- C `isspace` in the "C" locale: space, `\t`, `\n`, `\v`, `\f`, `\r`. -/
def isspace (c : Char) : Bool :=
  c == ' ' || c == '\t' || c == '\n' || c == '\x0b' || c == '\x0c' || c == '\r'

/-- The number of `char`s the characters `l` occupy in a C string, the
terminating NUL not counted: their length in UTF-8. -/
def cLen (l : List Char) : Nat := (String.mk l).utf8ByteSize

/-- The text that the directives of the format `"--%[^=]=%s"` match in `s`:
the characters destined for `argName` and for `argVal`.

* the literal `--` must match the first two characters;
* `%[^=]` takes the longest non-empty run of characters other than `=`;
* the literal `=` must match the next character;
* `%s` skips white space and takes the longest non-empty run of
  non-white-space characters.
Scanning stops at the first directive that fails; a field not reached is
empty. Neither conversion carries a field width, so the runs are not cut. -/
def matchNameVal (s : List Char) : List Char × List Char :=
  match s with
  | '-' :: '-' :: rest =>
    let name := rest.takeWhile (fun c => c != '=')
    if name = [] then ([], [])
    else
      match rest.dropWhile (fun c => c != '=') with
      | '=' :: rest2 =>
        let val := (rest2.dropWhile isspace).takeWhile (fun c => !isspace c)
        (name, val)
      | _ => (name, [])
  | _ => ([], [])

/-- The call `sscanf(argv[i], "--%[^=]=%s", argName, argVal)` with both buffers
holding `""` beforehand (the two `strcpy` calls). Returns the contents of
`(argName, argVal)` afterwards. The count it returns is stored in `numArgs`,
which is never read, so it is not part of the result.

Both buffers are `char[BUFSIZ]`: a matched name or value that occupies
`BUFSIZ` or more `char`s is written, with its terminating NUL, past the end
of its buffer. That is undefined behaviour; the result is then `none`. -/
def sscanfNameVal (s : List Char) : Option (List Char × List Char) :=
  if BUFSIZ ≤ cLen (matchNameVal s).1 ∨ BUFSIZ ≤ cLen (matchNameVal s).2 then none
  else some (matchNameVal s)

/-- Value of a run of decimal digits, most significant first. -/
def digitsVal (ds : List Char) : Nat :=
  ds.foldl (fun acc c => 10 * acc + (c.toNat - '0'.toNat)) 0

/-- The call `sscanf(argVal, " %d", &domain)`: skips white space, reads an
optional sign and a non-empty run of decimal digits. `none` when nothing is
assigned; otherwise the integer read. -/
def sscanfInt (s : List Char) : Option Int :=
  let t := s.dropWhile isspace
  let (neg, u) :=
    match t with
    | '-' :: u => (true, u)
    | '+' :: u => (false, u)
    | u => (false, u)
  let ds := u.takeWhile Char.isDigit
  if ds = [] then none
  else some (if neg then - (digitsVal ds : Int) else (digitsVal ds : Int))

/-- The value `%d` produces for the integer `v` written in the input: glibc
converts the digits as `strtol` does, saturating at `LONG_MIN` and `LONG_MAX`
(64-bit `long`). The C standard leaves the out-of-range case undefined. -/
def clampLong (v : Int) : Int := max (-(2 ^ 63)) (min v (2 ^ 63 - 1))

/-- Storing the converted value as an `int` through `&domain`, an
`unsigned *`: the low 32 bits, read as `unsigned`. -/
def toUnsigned (v : Int) : Nat := (clampLong v % (UINT_MOD : Int)).toNat

/-- Result of `readArgs`: the returned `usage` flag and the two reference
parameters after the call. -/
structure ReadArgsResult where
  usage : Nat
  domain : Nat
  commandFilePath : String
deriving DecidableEq, Repr

/-- The loop `for(i = 1; i < argc && usage == 0; i++)` of `readArgs`, running
over the arguments not yet visited; `none` when a scan overruns a buffer. -/
def readArgsLoop : List String → ReadArgsResult → Option ReadArgsResult
  | [], st => some st
  | a :: rest, st =>
    if st.usage ≠ 0 then some st
    else
      match sscanfNameVal a.data with
      | none => none
      | some (argName, argVal) =>
        if argName = "domain".data then
          -- `sscanf(argVal, " %d", &domain)` runs before the comparisons
          let dom := match sscanfInt argVal with
            | some v => toUnsigned v
            | none => st.domain
          if argVal = "AF_INET".data then
            readArgsLoop rest { st with domain := AF_INET }
          else if argVal = "AF_UNIX".data then
            readArgsLoop rest { st with domain := AF_UNIX }
          else
            readArgsLoop rest { st with domain := dom, usage := 1 }
        else if argName = "cmdFile".data then
          readArgsLoop rest { st with commandFilePath := String.mk argVal }
        else
          readArgsLoop rest { st with usage := 1 }

/-- The function `static int readArgs(int argc, char *argv[],
unsigned &domain, string &commandFilePath)`, with `argc = argv.length`;
`argv[0]` is skipped. The usage text printed when `usage` is set is
`usageText`. The result is `none` when a scan overruns a buffer. -/
def readArgs (argv : List String) (domain : Nat) (commandFilePath : String) :
    Option ReadArgsResult :=
  readArgsLoop (argv.drop 1)
    { usage := 0, domain := domain, commandFilePath := commandFilePath }

/-- The rule of 56 `=` signs that frames the warning of `readArgs`. -/
def usageRule : String := String.mk (List.replicate 56 '=')

/-- The lines `readArgs` prints when `usage` is set. -/
def usageText : List String :=
  [ usageRule,
    "Warning:: Invalid command line argument passed",
    usageRule,
    "usage: FabricServer",
    "    --domain=AF_INET | AF_UNIX    (default: AF_INET)",
    "    --cmdFile=<pathToCmdFile>     (default: )" ]

/-! ## External calls, exceptions and program state -/

/-- The member objects a `FabricServer` owns. -/
inductive Component
  | timeServer (i : Nat)
  | resetServer
  | vsiSimCtrl
  | softSwitch
  | vsiEthMonitor
deriving DecidableEq, Repr

/-- The TLM sockets and ports handed to `uvmc_connect`. -/
inductive Port
  /-- The port `timeServer[i]->advanceTargetSocket`. -/
  | advanceTargetSocket (i : Nat)
  /-- The port `*softSwitch->rxPorts[i]`. -/
  | rxPorts (i : Nat)
  /-- The port `*softSwitch->txPorts[i]`. -/
  | txPorts (i : Nat)
  /-- The port `*vsiSimCtrl->vsiServerConfigGateway->txConfigPorts[i]`. -/
  | txConfigPorts (i : Nat)
  /-- The port `*vsiSimCtrl->vsiServerConfigGateway->rxConfigPorts[i]`. -/
  | rxConfigPorts (i : Nat)
deriving DecidableEq, Repr

/-- Calls that leave `FabricServer.cxx`, with their arguments. -/
inductive Call
  /-- The call `SC_THREAD(mainThread)`. -/
  | SC_THREAD (process : String)
  /-- The call `timeServer[i] = new XlSyscTlmTimeServer(name)`. -/
  | newXlSyscTlmTimeServer (i : Nat) (name : String)
  /-- The call `new XlSyscTlmResetServer(name, numTargetSockets, resetIntervalInNs)`. -/
  | newXlSyscTlmResetServer (name : String) (numTargetSockets resetIntervalInNs : Nat)
  /-- The call `new XlTlmEthSoftSw(name, numPorts)`. -/
  | newXlTlmEthSoftSw (name : String) (numPorts : Nat)
  /-- The call `new VsiEthMonitor(name)`. -/
  | newVsiEthMonitor (name : String)
  /-- The call `softSwitch->analysisRxPorts[p]->bind(*target)`. -/
  | analysisRxPortsBind (p : Nat) (target : Component)
  /-- The call `softSwitch->analysisTxPorts[p]->bind(*target)`. -/
  | analysisTxPortsBind (p : Nat) (target : Component)
  /-- The call `softSwitch->enableMonitoring(b)`. -/
  | enableMonitoring (b : Bool)
  /-- The call `new VsiSimCtrl(name, numClients, flag, commandFilePath, resetNs, db)`. -/
  | newVsiSimCtrl (name : String) (numClients : Nat) (flag : Bool)
      (commandFilePath : String) (resetNs : Nat) (db : String)
  /-- The call `vsiSimCtrl->initializeEthSignalsMonitor(target)`. -/
  | initializeEthSignalsMonitor (target : Component)
  /-- The call `resetServer->connect(i, conduit)`. -/
  | resetServerConnect (i : Nat) (conduit : String)
  /-- The call `uvmc_connect<...>(port, conduit)`. -/
  | uvmc_connect (port : Port) (conduit : String)
  /-- The call `XlRemoteTlmConduit::connectToClient(session, domain, port)`. -/
  | connectToClient (session : String) (domain port : Nat)
  /-- The call `XlRemoteTlmConduit::listenForAllClients()`. -/
  | listenForAllClients
  /-- The call `resetServer->waitForReset()`. -/
  | waitForReset
  /-- The call `vsiSimCtrl->simCtrlMainThread()`. -/
  | simCtrlMainThread
  /-- The call `XlRemoteTlmConduit::disconnectFromClient(session)`. -/
  | disconnectFromClient (session : String)
  /-- The `delete` of a member object in `~FabricServer`. -/
  | deleteMember (target : Component)
deriving DecidableEq, Repr

/-- What an `sc_report` carries, as read by the handlers. -/
structure ScReport where
  msgType : String
  msg : String
  severity : Nat
  lineNumber : Nat
  fileName : String
deriving DecidableEq, Repr

/-- The values a C++ `throw` can deliver, split the way the handlers of
`mainThread` and `sc_main` split them. -/
inductive Exn
  /-- Caught by `catch( string message )`. -/
  | string (message : String)
  /-- Caught by `catch(sc_report message)`. -/
  | sc_report (message : ScReport)
  /-- Caught by `catch(sc_exception message)`. -/
  | sc_exception (what : String)
  /-- Anything else, caught by `catch(...)`. -/
  | other
deriving DecidableEq, Repr

/-- A line written to `stdout`/`cout` or to `cerr`. -/
inductive Out
  | stdout (line : String)
  | stderr (line : String)
deriving DecidableEq, Repr

/-- The behaviour of the outside for one run: which external calls raise, and
what `simCtrlMainThread` returns when it returns. -/
structure Env where
  raises : Call → Option Exn
  simCtrlResult : Bool

/-- Program state observable in this model. -/
structure State where
  /-- External calls made so far, oldest first. -/
  calls : List Call
  /-- Lines printed so far, oldest first. -/
  out : List Out
  /-- The member `FabricServer::userEnteredExitCommand`. -/
  userEnteredExitCommand : Bool
  /-- Whether `new FabricServer(...)` has returned and been assigned to the
  local `fabricServer` of `sc_main`. -/
  fabricServer : Bool
deriving DecidableEq, Repr

/-- State at entry of `sc_main`. -/
def State.init : State :=
  { calls := [], out := [], userEnteredExitCommand := false, fabricServer := false }

/-- A computation that may raise: the outcome together with the state reached. -/
def Run (α : Type) : Type := State → Except Exn α × State

/-- Normal completion with a value. -/
def Run.pure {α : Type} (a : α) : Run α := fun s => (.ok a, s)

/-- Sequencing: an exception in the first part skips the second. -/
def Run.bind {α β : Type} (m : Run α) (f : α → Run β) : Run β := fun s =>
  match m s with
  | (.ok a, s1) => f a s1
  | (.error e, s1) => (.error e, s1)

instance : Monad Run where
  pure := Run.pure
  bind := Run.bind

/-- An external call returning `void`: it is recorded, then raises or returns
as `env` says. -/
def extCall (env : Env) (c : Call) : Run Unit := fun s =>
  let s1 := { s with calls := s.calls ++ [c] }
  match env.raises c with
  | some e => (.error e, s1)
  | none => (.ok (), s1)

/-- Writing one line. -/
def print (o : Out) : Run Unit := fun s => (.ok (), { s with out := s.out ++ [o] })

/-- A `try` block followed by handlers that together catch every exception and
do not raise themselves: the result is always a normal completion. -/
def tryCatchAll {α : Type} (body : Run α) (handler : Exn → State → α × State) :
    State → α × State := fun s =>
  match body s with
  | (.ok a, s1) => (a, s1)
  | (.error e, s1) => handler e s1

/-- Straight-line code: the calls are made in order until one raises. -/
def extCalls (env : Env) : List Call → Run Unit
  | [] => Run.pure ()
  | c :: cs => Run.bind (extCall env c) (fun _ => extCalls env cs)

/-! ## `FabricServer` -/

/-- The C expression `lit + char(i)` on a string literal: a pointer `i`
characters into the literal, read as a C string. -/
def literalPlusChar (lit : String) (i : Nat) : String := String.mk (lit.data.drop i)

/-- The calls made by the loop
`for (int i = 0; i < NUMBER_OF_CLIENTS; i++)` of the constructor. -/
def FabricServer.timeServerCalls : List Call :=
  (List.range NUMBER_OF_CLIENTS).map
    (fun i => Call.newXlSyscTlmTimeServer i (literalPlusChar "timeServer" i))

/-- The external calls of the constructor `FabricServer::FabricServer`, in
program order. `commandFilePath` is the global read when `VsiSimCtrl` is
built. -/
def FabricServer.ctorCalls (commandFilePath : String) : List Call :=
  [ Call.SC_THREAD "mainThread" ] ++
  FabricServer.timeServerCalls ++
  [ Call.newXlSyscTlmResetServer "resetServer" NUMBER_OF_CLIENTS RESET_NS,
    Call.newXlTlmEthSoftSw "softSwitch" NUMBER_OF_ETH_PORTS,
    Call.newVsiEthMonitor "VsiEthMonitor",
    Call.analysisRxPortsBind 0 Component.vsiEthMonitor,
    Call.analysisTxPortsBind 0 Component.vsiEthMonitor,
    Call.analysisRxPortsBind 1 Component.vsiEthMonitor,
    Call.analysisTxPortsBind 1 Component.vsiEthMonitor,
    Call.analysisRxPortsBind 2 Component.vsiEthMonitor,
    Call.analysisTxPortsBind 2 Component.vsiEthMonitor,
    Call.analysisRxPortsBind 3 Component.vsiEthMonitor,
    Call.analysisTxPortsBind 3 Component.vsiEthMonitor,
    Call.enableMonitoring true,
    Call.newVsiSimCtrl "vsiSimCtrl" NUMBER_OF_CLIENTS false commandFilePath RESET_NS "signals",
    Call.initializeEthSignalsMonitor Component.vsiEthMonitor,
    -- Component0
    Call.resetServerConnect 0 ":resetServerConduit0",
    Call.uvmc_connect (Port.advanceTargetSocket 0) ":timeServerConduit0",
    Call.uvmc_connect (Port.rxPorts 0) ":txEtherFrameConduit0",
    Call.uvmc_connect (Port.txPorts 0) ":rxEtherFrameConduit0",
    Call.uvmc_connect (Port.txConfigPorts 0) ":rxConfigPort0",
    Call.uvmc_connect (Port.rxConfigPorts 0) ":txConfigPort0",
    -- Component1
    Call.resetServerConnect 1 ":resetServerConduit1",
    Call.uvmc_connect (Port.advanceTargetSocket 1) ":timeServerConduit1",
    Call.uvmc_connect (Port.rxPorts 1) ":txEtherFrameConduit1",
    Call.uvmc_connect (Port.txPorts 1) ":rxEtherFrameConduit1",
    Call.uvmc_connect (Port.txConfigPorts 1) ":rxConfigPort1",
    Call.uvmc_connect (Port.rxConfigPorts 1) ":txConfigPort1",
    -- Component2
    Call.resetServerConnect 2 ":resetServerConduit2",
    Call.uvmc_connect (Port.advanceTargetSocket 2) ":timeServerConduit2",
    Call.uvmc_connect (Port.rxPorts 2) ":txEtherFrameConduit2",
    Call.uvmc_connect (Port.txPorts 2) ":rxEtherFrameConduit2",
    Call.uvmc_connect (Port.txConfigPorts 2) ":rxConfigPort2",
    Call.uvmc_connect (Port.rxConfigPorts 2) ":txConfigPort2",
    -- Component3
    Call.resetServerConnect 3 ":resetServerConduit3",
    Call.uvmc_connect (Port.advanceTargetSocket 3) ":timeServerConduit3",
    Call.uvmc_connect (Port.rxPorts 3) ":txEtherFrameConduit3",
    Call.uvmc_connect (Port.txPorts 3) ":rxEtherFrameConduit3",
    Call.uvmc_connect (Port.txConfigPorts 3) ":rxConfigPort3",
    Call.uvmc_connect (Port.rxConfigPorts 3) ":txConfigPort3" ]

/-- The constructor `FabricServer::FabricServer(sc_module_name name)`:
`userEnteredExitCommand = false`, then the straight-line calls of
`ctorCalls`. -/
def FabricServer.FabricServer (env : Env) (commandFilePath : String) : Run Unit :=
  fun s => extCalls env (FabricServer.ctorCalls commandFilePath)
    { s with userEnteredExitCommand := false }

/-- The destructor `FabricServer::~FabricServer()`. -/
def FabricServer.destructorCalls : List Call :=
  [ Call.deleteMember Component.vsiSimCtrl, Call.deleteMember Component.resetServer ] ++
  (List.range NUMBER_OF_CLIENTS).map (fun i => Call.deleteMember (Component.timeServer i)) ++
  [ Call.deleteMember Component.softSwitch, Call.deleteMember Component.vsiEthMonitor ]

/-- The external calls of `FabricServer::start_of_simulation`, in program
order; `portNum + i` is `unsigned` arithmetic. -/
def FabricServer.startCalls (domain portNum : Nat) : List Call :=
  [ Call.connectToClient ":remoteSession0" domain ((portNum + 0) % UINT_MOD),
    Call.connectToClient ":remoteSession1" domain ((portNum + 1) % UINT_MOD),
    Call.connectToClient ":remoteSession2" domain ((portNum + 2) % UINT_MOD),
    Call.connectToClient ":remoteSession3" domain ((portNum + 3) % UINT_MOD),
    Call.listenForAllClients ]

/-- The function `void FabricServer::start_of_simulation()`, reading the
globals `domain` and `portNum`. -/
def FabricServer.start_of_simulation (env : Env) (g : Globals) : Run Unit := do
  extCalls env (FabricServer.startCalls g.domain g.portNum)
  print (Out.stdout
    "+=+ INFO: FabricServer::start_of_simulation() Waiting for client connections ...")

/-- The call `vsiSimCtrl->simCtrlMainThread()`, which returns a `bool`. -/
def simCtrlMainThread (env : Env) : Run Bool := fun s =>
  let s1 := { s with calls := s.calls ++ [Call.simCtrlMainThread] }
  match env.raises Call.simCtrlMainThread with
  | some e => (.error e, s1)
  | none => (.ok env.simCtrlResult, s1)

/-- The `try` block of `FabricServer::mainThread`. The two `printf` lines are
recorded by their format strings: the simulation time `convert.timeInNs()`
they print is not modelled, nor is `fflush(stdout)`; the locals `delay` and
`phase` are never used. -/
def FabricServer.mainThreadBody (env : Env) : Run Unit := do
  print (Out.stdout "@%lld ns (SC time) +=+ INFO: Awaiting reset ...")
  extCall env Call.waitForReset
  print (Out.stdout "@%lld ns (SC time)+=+ INFO: ... got it!")
  let r ← simCtrlMainThread env
  (fun s => (.ok (), { s with userEnteredExitCommand := r }))
  extCall env (Call.disconnectFromClient ":remoteSession0")
  extCall env (Call.disconnectFromClient ":remoteSession1")
  extCall env (Call.disconnectFromClient ":remoteSession2")
  extCall env (Call.disconnectFromClient ":remoteSession3")

/-- Appending lines to the output. -/
def State.emit (s : State) (lines : List Out) : State := { s with out := s.out ++ lines }

/-- The four handlers of `FabricServer::mainThread`: each only prints. -/
def FabricServer.mainThreadHandler (e : Exn) (s : State) : Unit × State :=
  match e with
  | Exn.string message =>
    ((), s.emit [Out.stderr message, Out.stderr "Fatal Error: Program aborting."])
  | Exn.sc_report message =>
    ((), s.emit
      [ Out.stdout "Error: SystemC report:",
        Out.stdout ("Type: " ++ message.msgType),
        Out.stdout ("Message: " ++ message.msg),
        Out.stdout ("Severity: " ++ toString message.severity),
        Out.stdout ("Where: line #" ++ toString message.lineNumber ++ " in " ++
          message.fileName),
        Out.stdout "Fatal Error: Program aborting." ])
  | Exn.sc_exception what =>
    ((), s.emit
      [ Out.stderr "Error: SystemC exception:", Out.stderr what,
        Out.stderr "Fatal Error: Program aborting." ])
  | Exn.other =>
    ((), s.emit
      [ Out.stderr "Error: Unclassified exception.",
        Out.stderr "Fatal Error: Program aborting." ])

/-- The function `void FabricServer::mainThread()`: the `try` block under its
four handlers. The last handler is `catch(...)`, so it always returns
normally. -/
def FabricServer.mainThread (env : Env) (s : State) : State :=
  (tryCatchAll (FabricServer.mainThreadBody env) FabricServer.mainThreadHandler s).2

/-! ## `sc_main` -/

/-- The SystemC kernel entry `sc_start()` as far as this module goes: the
kernel invokes the `start_of_simulation` callback and then runs the
`SC_THREAD` registered by the constructor until it returns. An exception
leaving the callback leaves `sc_start`. -/
def sc_start (env : Env) (g : Globals) : Run Unit := do
  FabricServer.start_of_simulation env g
  (fun s => (.ok (), FabricServer.mainThread env s))

/-- The `try` block of `sc_main`. -/
def sc_mainBody (env : Env) (g : Globals) : Run Int := do
  FabricServer.FabricServer env g.commandFilePath
  (fun s => (.ok (), { s with fabricServer := true }))
  sc_start env g
  pure 0

/-- The four handlers of `sc_main`: each prints and sets `ret = -1`. -/
def sc_mainHandler (e : Exn) (s : State) : Int × State :=
  match e with
  | Exn.string message =>
    (-1, s.emit [Out.stdout message, Out.stdout "Fatal Error: Program aborting."])
  | Exn.sc_report message =>
    (-1, s.emit
      [ Out.stdout "Error: SystemC report:",
        Out.stdout ("Type: " ++ message.msgType),
        Out.stdout ("Message: " ++ message.msg),
        Out.stdout ("Severity: " ++ toString message.severity),
        Out.stdout ("Where: line #" ++ toString message.lineNumber ++ " in " ++
          message.fileName),
        Out.stdout "Fatal Error: Program aborting." ])
  | Exn.sc_exception what =>
    (-1, s.emit
      [ Out.stdout "Error: SystemC exception:", Out.stdout what,
        Out.stdout "Fatal Error: Program aborting." ])
  | Exn.other =>
    (-1, s.emit
      [ Out.stdout "Error: Unclassified exception.",
        Out.stdout "Fatal Error: Program aborting." ])

/-- The statement `if(fabricServer) delete fabricServer;`. The pointer is
assigned only when the constructor returned (it is declared without an
initial value); the model runs the destructor exactly then. -/
def deleteFabricServer (s : State) : State :=
  if s.fabricServer then { s with calls := s.calls ++ FabricServer.destructorCalls } else s

/-- The globals once `readArgs` has returned: `domain` and `commandFilePath`
were passed by reference, `portNum` is never assigned. -/
def globalsAfter (r : ReadArgsResult) : Globals :=
  { Globals.init with domain := r.domain, commandFilePath := r.commandFilePath }

/-- The part of `sc_main` that follows the call of `readArgs`, given what
that call left in `usage`, `domain` and `commandFilePath`. -/
def sc_mainAfterArgs (env : Env) (r : ReadArgsResult) : Int × State :=
  if r.usage ≠ 0 then
    (-1, State.init.emit (usageText.map Out.stdout))
  else
    let (ret, s) := tryCatchAll (sc_mainBody env (globalsAfter r)) sc_mainHandler State.init
    (ret, deleteFabricServer s)

/-- The function `int sc_main(int argc, char *argv[])`: the exit code and the
final state. The globals start at `Globals.init`; `readArgs` updates `domain`
and `commandFilePath` in place. The result is `none` when `readArgs` overruns
a scan buffer. -/
def sc_main (env : Env) (argv : List String) : Option (Int × State) :=
  (readArgs argv Globals.init.domain Globals.init.commandFilePath).map (sc_mainAfterArgs env)

/-! ## Environments used as concrete inputs -/

/-- No external call raises; the operator enters the exit command. -/
def quietEnv : Env := { raises := fun _ => none, simCtrlResult := true }

/-- Only `resetServer->waitForReset()` raises, a `string`. -/
def resetRaisesEnv : Env :=
  { raises := fun c => if c = Call.waitForReset then some (Exn.string "reset failed") else none,
    simCtrlResult := true }

/-- Only `vsiSimCtrl->simCtrlMainThread()` raises, an unclassified value. -/
def simCtrlRaisesEnv : Env :=
  { raises := fun c => if c = Call.simCtrlMainThread then some Exn.other else none,
    simCtrlResult := true }

/-! ## Definitions used to state the claims -/

/-- The external calls made before `mainThread` starts: the constructor and
`start_of_simulation`. -/
def setupCalls (g : Globals) : List Call :=
  FabricServer.ctorCalls g.commandFilePath ++ FabricServer.startCalls g.domain g.portNum

/-- The argument forms named by the specification: `--domain=AF_INET`,
`--domain=AF_UNIX`, or `--cmdFile=` followed by a value. -/
def claimedForm (a : String) : Bool :=
  a == "--domain=AF_INET" || a == "--domain=AF_UNIX" || "--cmdFile=".data.isPrefixOf a.data

/-- Whether a remainder is empty or starts with white space. -/
def endsOrSpace : List Char → Bool
  | [] => true
  | c :: _ => isspace c

/-- The argument forms `readArgs` lets through, written on the text of the
argument: `--cmdFile` alone, `--cmdFile=` followed by anything, or `--domain=`
followed by optional white space, then `AF_INET` or `AF_UNIX`, then the end
of the argument or white space (and anything after it). -/
def acceptedForm (a : String) : Bool :=
  a.data == "--cmdFile".data ||
  "--cmdFile=".data.isPrefixOf a.data ||
  ("--domain=".data.isPrefixOf a.data &&
    (("AF_INET".data.isPrefixOf ((a.data.drop 9).dropWhile isspace) ||
        "AF_UNIX".data.isPrefixOf ((a.data.drop 9).dropWhile isspace)) &&
      endsOrSpace (((a.data.drop 9).dropWhile isspace).drop 7)))

/-- What the loop body of `readArgs` tests on the two scanned buffers to leave
`usage` at 0. -/
def scanAccepts (a : String) : Bool :=
  ((matchNameVal a.data).1 == "domain".data &&
    ((matchNameVal a.data).2 == "AF_INET".data ||
      (matchNameVal a.data).2 == "AF_UNIX".data)) ||
  (matchNameVal a.data).1 == "cmdFile".data

/-- The `domain` arguments of the `connectToClient` calls among `calls`, in
call order. -/
def connectDomains (calls : List Call) : List Nat :=
  calls.filterMap (fun c =>
    match c with
    | Call.connectToClient _ domain _ => some domain
    | _ => none)

/-- A value of `n` letters `a`, one `char` each: non-empty for `n > 0` and
free of white space. -/
def lettersA (n : Nat) : String := String.mk (List.replicate n 'a')

/-! ## Lemmas on the scanners -/

theorem dropWhile_isspace_of_head (l : List Char) (hne : l ≠ [])
    (hws : ∀ c ∈ l, isspace c = false) : l.dropWhile isspace = l := by
  cases l with
  | nil => exact absurd rfl hne
  | cons c t => simp [List.dropWhile, hws c (by simp)]

theorem takeWhile_not_isspace (l : List Char) (hws : ∀ c ∈ l, isspace c = false) :
    l.takeWhile (fun c => !isspace c) = l := by
  rw [List.takeWhile_eq_self_iff]
  intro c hc
  simp [hws c hc]

theorem matchNameVal_domain (v : List Char) (hne : v ≠ [])
    (hws : ∀ c ∈ v, isspace c = false) :
    matchNameVal ("--domain=".data ++ v) = ("domain".data, v) := by
  have hlit : "--domain=".data = ['-', '-', 'd', 'o', 'm', 'a', 'i', 'n', '='] := rfl
  rw [hlit]
  simp [matchNameVal, List.takeWhile, List.dropWhile, dropWhile_isspace_of_head v hne hws,
    takeWhile_not_isspace v hws]

theorem matchNameVal_cmdFile (v : List Char) (hne : v ≠ [])
    (hws : ∀ c ∈ v, isspace c = false) :
    matchNameVal ("--cmdFile=".data ++ v) = ("cmdFile".data, v) := by
  have hlit : "--cmdFile=".data = ['-', '-', 'c', 'm', 'd', 'F', 'i', 'l', 'e', '='] := rfl
  rw [hlit]
  simp [matchNameVal, List.takeWhile, List.dropWhile, dropWhile_isspace_of_head v hne hws,
    takeWhile_not_isspace v hws]

theorem data_ne_nil_of_ne_empty (V : String) (h : V ≠ "") : V.data ≠ [] := by
  intro hd
  apply h
  cases V
  simp_all

theorem data_eq_iff (V W : String) : V.data = W.data ↔ V = W := by
  constructor
  · intro h
    cases V; cases W; simp_all
  · intro h
    rw [h]

theorem dropWhile_ne_eq_cases (l : List Char) :
    l.dropWhile (fun c => c != '=') = [] ∨
    ∃ t, l.dropWhile (fun c => c != '=') = '=' :: t := by
  induction l with
  | nil => simp
  | cons c t ih =>
    by_cases hc : c = '='
    · right
      exact ⟨t, by simp [List.dropWhile, hc]⟩
    · have hc2 : (c != '=') = true := by simp [hc]
      rw [List.dropWhile_cons]
      simp only [hc2, if_true]
      exact ih

theorem endsOrSpace_dropWhile (l : List Char) :
    endsOrSpace (l.dropWhile (fun c => !isspace c)) = true := by
  induction l with
  | nil => rfl
  | cons c t ih =>
    cases hc : isspace c
    · simpa [List.dropWhile, hc] using ih
    · simp [List.dropWhile, hc, endsOrSpace]

theorem takeWhile_of_endsOrSpace (t : List Char) (h : endsOrSpace t = true) :
    t.takeWhile (fun c => !isspace c) = [] := by
  cases t with
  | nil => rfl
  | cons c u =>
    simp only [endsOrSpace] at h
    simp [List.takeWhile, h]

/-- What a successful name scan says about the argument text. -/
theorem matchNameVal_name (s n v : List Char) (h : matchNameVal s = (n, v)) (hn : n ≠ []) :
    ∃ rest, s = '-' :: '-' :: rest ∧ n = rest.takeWhile (fun c => c != '=') ∧
      ((rest.dropWhile (fun c => c != '=') = [] ∧ v = []) ∨
        ∃ rest2, rest.dropWhile (fun c => c != '=') = '=' :: rest2 ∧
          v = (rest2.dropWhile isspace).takeWhile (fun c => !isspace c)) := by
  unfold matchNameVal at h
  split at h
  · rename_i rest
    refine ⟨rest, rfl, ?_⟩
    by_cases hname : rest.takeWhile (fun c => c != '=') = []
    · simp [hname] at h
      exact absurd h.1 hn
    · simp only [hname, if_false] at h
      rcases dropWhile_ne_eq_cases rest with hd | ⟨t, hd⟩
      · rw [hd] at h
        simp at h
        exact ⟨h.1.symm, Or.inl ⟨hd, h.2⟩⟩
      · rw [hd] at h
        simp at h
        exact ⟨h.1.symm, Or.inr ⟨t, hd, h.2.symm⟩⟩
  · simp at h
    exact absurd h.1 hn

theorem matchNameVal_sublist (s : List Char) :
    List.Sublist (matchNameVal s).1 s ∧ List.Sublist (matchNameVal s).2 s := by
  unfold matchNameVal
  split
  · rename_i rest
    have h1 : List.Sublist (rest.takeWhile (fun c => c != '=')) ('-' :: '-' :: rest) :=
      ((List.takeWhile_sublist _).cons _).cons _
    have h2 : List.Sublist (rest.dropWhile (fun c => c != '=')) ('-' :: '-' :: rest) :=
      ((List.dropWhile_sublist _).cons _).cons _
    by_cases hname : rest.takeWhile (fun c => c != '=') = []
    · simp [hname]
    · simp only [hname, if_false]
      split
      · rename_i rest2 heq
        rw [heq] at h2
        have h3 : List.Sublist ((rest2.dropWhile isspace).takeWhile (fun c => !isspace c))
            ('=' :: rest2) :=
          ((List.takeWhile_sublist _).trans (List.dropWhile_sublist _)).cons _
        exact ⟨h1, h3.trans h2⟩
      · exact ⟨h1, List.nil_sublist _⟩
  · simp

theorem cLen_le_of_sublist (l1 l2 : List Char) (h : List.Sublist l1 l2) :
    cLen l1 ≤ cLen l2 :=
  String.utf8Len_le_of_sublist h

theorem sscanfNameVal_of_lengths (s : List Char) (h1 : cLen (matchNameVal s).1 < BUFSIZ)
    (h2 : cLen (matchNameVal s).2 < BUFSIZ) :
    sscanfNameVal s = some (matchNameVal s) := by
  unfold sscanfNameVal
  rw [if_neg]
  omega

theorem sscanfNameVal_of_fit (s : List Char) (h : cLen s < BUFSIZ) :
    sscanfNameVal s = some (matchNameVal s) := by
  have h1 := cLen_le_of_sublist _ _ (matchNameVal_sublist s).1
  have h2 := cLen_le_of_sublist _ _ (matchNameVal_sublist s).2
  exact sscanfNameVal_of_lengths s (by omega) (by omega)

theorem sscanfNameVal_of_overrun (s : List Char) (h : BUFSIZ ≤ cLen (matchNameVal s).2) :
    sscanfNameVal s = none := by
  unfold sscanfNameVal
  rw [if_pos (Or.inr h)]

theorem sscanfNameVal_domain (v : List Char) (hne : v ≠ [])
    (hws : ∀ c ∈ v, isspace c = false) (hlen : cLen v < BUFSIZ) :
    sscanfNameVal ("--domain=".data ++ v) = some ("domain".data, v) := by
  have hm := matchNameVal_domain v hne hws
  have h1 : cLen (matchNameVal ("--domain=".data ++ v)).1 < BUFSIZ := by
    rw [hm]
    show cLen "domain".data < BUFSIZ
    decide
  have h2 : cLen (matchNameVal ("--domain=".data ++ v)).2 < BUFSIZ := by
    rw [hm]; exact hlen
  rw [sscanfNameVal_of_lengths _ h1 h2, hm]

theorem sscanfNameVal_cmdFile (v : List Char) (hne : v ≠ [])
    (hws : ∀ c ∈ v, isspace c = false) (hlen : cLen v < BUFSIZ) :
    sscanfNameVal ("--cmdFile=".data ++ v) = some ("cmdFile".data, v) := by
  have hm := matchNameVal_cmdFile v hne hws
  have h1 : cLen (matchNameVal ("--cmdFile=".data ++ v)).1 < BUFSIZ := by
    rw [hm]
    show cLen "cmdFile".data < BUFSIZ
    decide
  have h2 : cLen (matchNameVal ("--cmdFile=".data ++ v)).2 < BUFSIZ := by
    rw [hm]; exact hlen
  rw [sscanfNameVal_of_lengths _ h1 h2, hm]

theorem lettersA_ne_empty (n : Nat) (h : 0 < n) : lettersA n ≠ "" := by
  intro he
  have hl : (lettersA n).length = 0 := by rw [he]; rfl
  simp [lettersA] at hl
  omega

theorem lettersA_utf8ByteSize (n : Nat) : (lettersA n).utf8ByteSize = n := by
  induction n with
  | zero => rfl
  | succ k ih =>
    have h1 : (lettersA (k + 1)).utf8ByteSize = (lettersA k).utf8ByteSize + 'a'.utf8Size := rfl
    rw [h1, ih]
    rfl

theorem lettersA_no_space (n : Nat) : ∀ c ∈ (lettersA n).data, isspace c = false := by
  intro c hc
  have hca : c = 'a' := List.eq_of_mem_replicate hc
  rw [hca]
  decide

/-! ## Lemmas on `readArgs` -/

theorem readArgsLoop_of_usage (args : List String) (st : ReadArgsResult)
    (h : st.usage ≠ 0) : readArgsLoop args st = some st := by
  cases args <;> simp [readArgsLoop, h]

theorem readArgsLoop_reject (args : List String) (st : ReadArgsResult)
    (hfit : ∀ a ∈ args, a.utf8ByteSize < BUFSIZ)
    (h0 : st.usage = 0) (h : ∃ a ∈ args, scanAccepts a = false) :
    ∃ r, readArgsLoop args st = some r ∧ r.usage = 1 := by
  induction args generalizing st with
  | nil => simp at h
  | cons a rest ih =>
    have hscan := sscanfNameVal_of_fit a.data (hfit a (by simp))
    have hfit1 : ∀ b ∈ rest, b.utf8ByteSize < BUFSIZ := fun b hb => hfit b (by simp [hb])
    rcases hs : matchNameVal a.data with ⟨n, v⟩
    rw [hs] at hscan
    have hrest : scanAccepts a = true → ∃ b ∈ rest, scanAccepts b = false := by
      intro hacc
      rcases h with ⟨b, hb, hbf⟩
      rcases List.mem_cons.1 hb with rfl | hb1
      · rw [hacc] at hbf; cases hbf
      · exact ⟨b, hb1, hbf⟩
    have hstop : ∀ st1 : ReadArgsResult, st1.usage = 1 →
        ∃ r, readArgsLoop rest st1 = some r ∧ r.usage = 1 := by
      intro st1 h1
      exact ⟨st1, readArgsLoop_of_usage _ _ (by omega), h1⟩
    by_cases hn : n = "domain".data
    · by_cases h1 : v = "AF_INET".data
      · have hacc : scanAccepts a = true := by simp [scanAccepts, hs, hn, h1]
        simp only [readArgsLoop, h0, hscan, hn, h1, ne_eq, not_true_eq_false, if_false,
          if_true]
        exact ih _ hfit1 rfl (hrest hacc)
      · by_cases h2 : v = "AF_UNIX".data
        · have hacc : scanAccepts a = true := by simp [scanAccepts, hs, hn, h2]
          simp only [readArgsLoop, h0, hscan, hn, h1, h2, ne_eq, not_true_eq_false,
            if_false, if_true]
          exact ih _ hfit1 rfl (hrest hacc)
        · simp only [readArgsLoop, h0, hscan, hn, h1, h2, ne_eq, not_true_eq_false,
            if_false, if_true]
          exact hstop _ rfl
    · by_cases hc : n = "cmdFile".data
      · have hacc : scanAccepts a = true := by simp [scanAccepts, hs, hc]
        simp only [readArgsLoop, h0, hscan, hn, hc, ne_eq, not_true_eq_false, if_false,
          if_true]
        exact ih _ hfit1 rfl (hrest hacc)
      · simp only [readArgsLoop, h0, hscan, hn, hc, ne_eq, not_true_eq_false, if_false,
          if_true]
        exact hstop _ rfl

theorem readArgsLoop_accept (args : List String) (st : ReadArgsResult)
    (hfit : ∀ a ∈ args, a.utf8ByteSize < BUFSIZ)
    (h0 : st.usage = 0) (h : ∀ a ∈ args, scanAccepts a = true) :
    ∃ r, readArgsLoop args st = some r ∧ r.usage = 0 := by
  induction args generalizing st with
  | nil => exact ⟨st, by simp [readArgsLoop], h0⟩
  | cons a rest ih =>
    have hscan := sscanfNameVal_of_fit a.data (hfit a (by simp))
    have hfit1 : ∀ b ∈ rest, b.utf8ByteSize < BUFSIZ := fun b hb => hfit b (by simp [hb])
    rcases hs : matchNameVal a.data with ⟨n, v⟩
    rw [hs] at hscan
    have hrest : ∀ b ∈ rest, scanAccepts b = true := fun b hb => h b (by simp [hb])
    have hacc := h a (by simp)
    simp only [scanAccepts, hs, Bool.or_eq_true, Bool.and_eq_true, beq_iff_eq] at hacc
    by_cases hn : n = "domain".data
    · have hcm : "domain".data ≠ "cmdFile".data := by decide
      rw [hn] at hacc
      rcases hacc with ⟨_, h1 | h2⟩ | hc
      · simp only [readArgsLoop, h0, hscan, hn, h1, ne_eq, not_true_eq_false, if_false,
          if_true]
        exact ih _ hfit1 rfl hrest
      · have h1 : v ≠ "AF_INET".data := by rw [h2]; decide
        simp only [readArgsLoop, h0, hscan, hn, h1, h2, ne_eq, not_true_eq_false, if_false,
          if_true]
        exact ih _ hfit1 rfl hrest
      · exact absurd hc hcm
    · rcases hacc with ⟨h1, _⟩ | hc
      · exact absurd h1 hn
      · simp only [readArgsLoop, h0, hscan, hn, hc, ne_eq, not_true_eq_false, if_false,
          if_true]
        exact ih _ hfit1 rfl hrest

theorem acceptedForm_of_scanAccepts (a : String) (h : scanAccepts a = true) :
    acceptedForm a = true := by
  rcases hs : matchNameVal a.data with ⟨n, v⟩
  have hlitc : "--cmdFile".data = ['-', '-', 'c', 'm', 'd', 'F', 'i', 'l', 'e'] := rfl
  have hlitc2 : "--cmdFile=".data = ['-', '-', 'c', 'm', 'd', 'F', 'i', 'l', 'e', '='] := rfl
  have hlitd : "--domain=".data = ['-', '-', 'd', 'o', 'm', 'a', 'i', 'n', '='] := rfl
  simp only [scanAccepts, hs, Bool.or_eq_true, Bool.and_eq_true, beq_iff_eq] at h
  have hn : n ≠ [] := by
    rcases h with ⟨h1, _⟩ | h1 <;> rw [h1] <;> decide
  obtain ⟨rest, hdata, hname, hval⟩ := matchNameVal_name a.data n v hs hn
  have hsplit := List.takeWhile_append_dropWhile (fun c => c != '=') rest
  rw [← hname] at hsplit
  rcases h with ⟨h1, h2⟩ | h1
  · -- `domain`
    have hv : v ≠ [] := by
      rcases h2 with h2 | h2 <;> rw [h2] <;> decide
    rcases hval with ⟨_, hv0⟩ | ⟨rest2, hd, hv2⟩
    · exact absurd hv0 hv
    · rw [hd, h1] at hsplit
      have hr := List.takeWhile_append_dropWhile (fun c => !isspace c)
        (rest2.dropWhile isspace)
      rw [← hv2] at hr
      have hends := endsOrSpace_dropWhile (rest2.dropWhile isspace)
      have hdrop : (rest2.dropWhile isspace).drop 7 =
          (rest2.dropWhile isspace).dropWhile (fun c => !isspace c) := by
        have hlen : v.length = 7 := by
          rcases h2 with h2 | h2 <;> rw [h2] <;> rfl
        conv_lhs => rw [← hr]
        rw [← hlen]
        exact List.drop_left _ _
      have hpre : v <+: rest2.dropWhile isspace := ⟨_, hr⟩
      have hdata9 : a.data = "--domain=".data ++ rest2 := by
        rw [hdata, ← hsplit, hlitd]
        rfl
      unfold acceptedForm
      rw [hdata9]
      have hdrop9 : ("--domain=".data ++ rest2).drop 9 = rest2 := by
        rw [hlitd]; rfl
      rw [hdrop9, hdrop, hends]
      have hp : ("--domain=".data.isPrefixOf ("--domain=".data ++ rest2)) = true := by
        rw [List.isPrefixOf_iff_prefix]
        exact List.prefix_append _ _
      rw [hp]
      have hpv : ("AF_INET".data.isPrefixOf (rest2.dropWhile isspace) ||
          "AF_UNIX".data.isPrefixOf (rest2.dropWhile isspace)) = true := by
        rcases h2 with h2 | h2
        · rw [h2] at hpre
          simp [List.isPrefixOf_iff_prefix, hpre]
        · rw [h2] at hpre
          simp [List.isPrefixOf_iff_prefix, hpre]
      rw [hpv]
      simp
  · -- `cmdFile`
    rw [h1] at hsplit
    rcases hval with ⟨hd, _⟩ | ⟨rest2, hd, _⟩
    · rw [hd, List.append_nil] at hsplit
      have hdata9 : a.data = "--cmdFile".data := by
        rw [hdata, ← hsplit, hlitc]
      unfold acceptedForm
      rw [hdata9]
      decide
    · rw [hd] at hsplit
      have hdata9 : a.data = "--cmdFile=".data ++ rest2 := by
        rw [hdata, ← hsplit, hlitc2]
        rfl
      have hp : ("--cmdFile=".data.isPrefixOf ("--cmdFile=".data ++ rest2)) = true := by
        rw [List.isPrefixOf_iff_prefix]
        exact List.prefix_append _ _
      unfold acceptedForm
      rw [hdata9, hp]
      simp

theorem scanAccepts_of_acceptedForm (a : String) (h : acceptedForm a = true) :
    scanAccepts a = true := by
  have hlitd : "--domain=".data = ['-', '-', 'd', 'o', 'm', 'a', 'i', 'n', '='] := rfl
  simp only [acceptedForm, Bool.or_eq_true, Bool.and_eq_true, beq_iff_eq,
    List.isPrefixOf_iff_prefix] at h
  rcases h with (h | ⟨t, h⟩) | ⟨⟨rest2, hd⟩, hv, hends⟩
  · simp only [scanAccepts, h]
    decide
  · have hs : matchNameVal a.data = ("cmdFile".data,
        (t.dropWhile isspace).takeWhile (fun c => !isspace c)) := by
      rw [← h]
      simp [matchNameVal, List.takeWhile, List.dropWhile]
    simp only [scanAccepts, hs]
    simp
  · rw [← hd] at hv hends
    have hdrop9 : ("--domain=".data ++ rest2).drop 9 = rest2 := by
      rw [hlitd]; rfl
    rw [hdrop9] at hv hends
    have hs : matchNameVal a.data = ("domain".data,
        (rest2.dropWhile isspace).takeWhile (fun c => !isspace c)) := by
      rw [← hd]
      simp [matchNameVal, List.takeWhile, List.dropWhile]
    have hval : (rest2.dropWhile isspace).takeWhile (fun c => !isspace c) = "AF_INET".data ∨
        (rest2.dropWhile isspace).takeWhile (fun c => !isspace c) = "AF_UNIX".data := by
      rcases hv with ⟨t, ht⟩ | ⟨t, ht⟩
      · left
        rw [← ht] at hends ⊢
        have h7 : ("AF_INET".data ++ t).drop 7 = t := rfl
        rw [h7] at hends
        rw [List.takeWhile_append_of_pos (by decide), takeWhile_of_endsOrSpace t hends]
        rfl
      · right
        rw [← ht] at hends ⊢
        have h7 : ("AF_UNIX".data ++ t).drop 7 = t := rfl
        rw [h7] at hends
        rw [List.takeWhile_append_of_pos (by decide), takeWhile_of_endsOrSpace t hends]
        rfl
    simp only [scanAccepts, hs]
    rcases hval with hval | hval <;> rw [hval] <;> decide

/-- When every argument after `argv[0]` occupies fewer than `BUFSIZ` `char`s, `readArgs`
returns, and its return value is 0 exactly when every such argument is of an
accepted form. -/
theorem readArgs_usage_eq_zero_iff (argv : List String) (domain : Nat) (path : String)
    (hfit : ∀ a ∈ argv.drop 1, a.utf8ByteSize < BUFSIZ) :
    (∃ r, readArgs argv domain path = some r) ∧
    ((readArgs argv domain path).map (fun r => r.usage) = some 0 ↔
      ∀ a ∈ argv.drop 1, acceptedForm a = true) := by
  by_cases hall : ∀ a ∈ argv.drop 1, scanAccepts a = true
  · obtain ⟨r, hr, hu⟩ := readArgsLoop_accept (argv.drop 1)
      { usage := 0, domain := domain, commandFilePath := path } hfit rfl hall
    have hr1 : readArgs argv domain path = some r := hr
    refine ⟨⟨r, hr1⟩, ?_⟩
    rw [hr1]
    simp only [Option.map_some', hu, true_iff]
    exact fun a ha => acceptedForm_of_scanAccepts a (hall a ha)
  · have hex : ∃ a ∈ argv.drop 1, scanAccepts a = false := by
      by_contra hcon
      apply hall
      intro a ha
      cases hsa : scanAccepts a with
      | true => rfl
      | false => exact absurd ⟨a, ha, hsa⟩ hcon
    obtain ⟨r, hr, hu⟩ := readArgsLoop_reject (argv.drop 1)
      { usage := 0, domain := domain, commandFilePath := path } hfit rfl hex
    have hr1 : readArgs argv domain path = some r := hr
    refine ⟨⟨r, hr1⟩, ?_⟩
    rw [hr1]
    simp only [Option.map_some', hu]
    constructor
    · intro h1
      simp at h1
    · intro hform
      exfalso
      obtain ⟨a, ha, hsa⟩ := hex
      have := scanAccepts_of_acceptedForm a (hform a ha)
      rw [hsa] at this
      cases this

/-- On a single argument whose value `V` is non-empty, free of white space
and occupies fewer than `BUFSIZ` `char`s: `--domain=V` is accepted exactly for `AF_INET` and
`AF_UNIX`, with `domain` set to match; `--cmdFile=V` is accepted, sets
`commandFilePath` to `V` and leaves `domain` unchanged. -/
theorem readArgs_single_argument (prog V : String) (domain : Nat) (path : String)
    (hne : V ≠ "") (hws : ∀ c ∈ V.data, isspace c = false)
    (hlen : V.utf8ByteSize < BUFSIZ) :
    ((readArgs [prog, "--domain=" ++ V] domain path).map (fun r => r.usage) = some 0 ↔
      (V = "AF_INET" ∨ V = "AF_UNIX")) ∧
    (V = "AF_INET" → readArgs [prog, "--domain=" ++ V] domain path =
      some { usage := 0, domain := AF_INET, commandFilePath := path }) ∧
    (V = "AF_UNIX" → readArgs [prog, "--domain=" ++ V] domain path =
      some { usage := 0, domain := AF_UNIX, commandFilePath := path }) ∧
    readArgs [prog, "--cmdFile=" ++ V] domain path =
      some { usage := 0, domain := domain, commandFilePath := V } := by
  have hv := data_ne_nil_of_ne_empty V hne
  have hd := sscanfNameVal_domain V.data hv hws hlen
  have hc := sscanfNameVal_cmdFile V.data hv hws hlen
  have e1 : V.data = "AF_INET".data ↔ V = "AF_INET" := data_eq_iff _ _
  have e2 : V.data = "AF_UNIX".data ↔ V = "AF_UNIX" := data_eq_iff _ _
  refine ⟨?_, ?_, ?_, ?_⟩
  · simp only [readArgs, List.drop, readArgsLoop, String.data_append, hd]
    by_cases h1 : V = "AF_INET"
    · simp [h1]
    · by_cases h2 : V = "AF_UNIX"
      · simp [h2]
      · simp [h1, h2, e1, e2]
  · intro h1
    simp only [readArgs, List.drop, readArgsLoop, String.data_append, hd]
    simp [h1]
  · intro h2
    simp only [readArgs, List.drop, readArgsLoop, String.data_append, hd]
    simp [h2]
  · simp only [readArgs, List.drop, readArgsLoop, String.data_append, hc]
    simp

/-- On a single argument `--cmdFile=V` or `--domain=V` whose value `V` is
non-empty, free of white space and occupies `BUFSIZ` or more `char`s, the
scan overruns `argVal`. -/
theorem readArgs_single_argument_overrun (prog V : String) (domain : Nat) (path : String)
    (hne : V ≠ "") (hws : ∀ c ∈ V.data, isspace c = false)
    (hlen : BUFSIZ ≤ V.utf8ByteSize) :
    readArgs [prog, "--cmdFile=" ++ V] domain path = none ∧
    readArgs [prog, "--domain=" ++ V] domain path = none := by
  have hv := data_ne_nil_of_ne_empty V hne
  have hc : sscanfNameVal ("--cmdFile=".data ++ V.data) = none :=
    sscanfNameVal_of_overrun _ (by rw [matchNameVal_cmdFile V.data hv hws]; exact hlen)
  have hd : sscanfNameVal ("--domain=".data ++ V.data) = none :=
    sscanfNameVal_of_overrun _ (by rw [matchNameVal_domain V.data hv hws]; exact hlen)
  constructor
  · simp only [readArgs, List.drop, readArgsLoop, String.data_append, hc]
    simp
  · simp only [readArgs, List.drop, readArgsLoop, String.data_append, hd]
    simp

/-! ## Lemmas on straight-line calls -/

theorem extCalls_ok (env : Env) (cs : List Call) (s : State)
    (h : ∀ c ∈ cs, env.raises c = none) :
    extCalls env cs s = (Except.ok (), { s with calls := s.calls ++ cs }) := by
  induction cs generalizing s with
  | nil => simp [extCalls, Run.pure]
  | cons c cs ih =>
    have hc : env.raises c = none := h c (by simp)
    have ht : ∀ d ∈ cs, env.raises d = none := fun d hd => h d (by simp [hd])
    simp [extCalls, Run.bind, extCall, hc, ih _ ht]

theorem extCalls_calls_of_ok (env : Env) (cs : List Call) (s : State)
    (h : (extCalls env cs s).1 = Except.ok ()) :
    (extCalls env cs s).2.calls = s.calls ++ cs := by
  induction cs generalizing s with
  | nil => simp [extCalls, Run.pure]
  | cons c cs ih =>
    cases hc : env.raises c with
    | some e => simp [extCalls, Run.bind, extCall, hc] at h
    | none =>
      simp only [extCalls, Run.bind, extCall, hc] at h ⊢
      rw [ih _ h]
      simp

/-! ## Lemmas on the constructor -/

theorem timeServerCalls_eq :
    FabricServer.timeServerCalls =
      [ Call.newXlSyscTlmTimeServer 0 "timeServer",
        Call.newXlSyscTlmTimeServer 1 "imeServer",
        Call.newXlSyscTlmTimeServer 2 "meServer",
        Call.newXlSyscTlmTimeServer 3 "eServer" ] := by
  decide

theorem ctor_calls_of_ok (env : Env) (path : String)
    (h : (FabricServer.FabricServer env path State.init).1 = Except.ok ()) :
    (FabricServer.FabricServer env path State.init).2.calls = FabricServer.ctorCalls path := by
  unfold FabricServer.FabricServer at h ⊢
  rw [extCalls_calls_of_ok env _ _ h]
  rfl

theorem ctor_ok_of_no_raise (env : Env) (path : String) (h : ∀ c, env.raises c = none) :
    (FabricServer.FabricServer env path State.init).1 = Except.ok () := by
  unfold FabricServer.FabricServer
  rw [extCalls_ok env _ _ (fun c _ => h c)]

theorem count_ctorCalls (path : String) (c : Call)
    (hc : ∀ name n flag p r db, c ≠ Call.newVsiSimCtrl name n flag p r db) :
    (FabricServer.ctorCalls path).count c = (FabricServer.ctorCalls "").count c := by
  have h1 := hc "vsiSimCtrl" NUMBER_OF_CLIENTS false path RESET_NS "signals"
  have h2 := hc "vsiSimCtrl" NUMBER_OF_CLIENTS false "" RESET_NS "signals"
  simp only [FabricServer.ctorCalls, List.count_append, List.count_cons, List.count_nil]
  simp [Ne.symm h1, Ne.symm h2]

/-! ## Lemmas on `mainThread` -/

theorem mainThread_no_raise (env : Env) (s : State) (h : ∀ c, env.raises c = none) :
    FabricServer.mainThread env s =
      { s with
        calls := s.calls ++
          [ Call.waitForReset, Call.simCtrlMainThread,
            Call.disconnectFromClient ":remoteSession0",
            Call.disconnectFromClient ":remoteSession1",
            Call.disconnectFromClient ":remoteSession2",
            Call.disconnectFromClient ":remoteSession3" ],
        out := s.out ++
          [ Out.stdout "@%lld ns (SC time) +=+ INFO: Awaiting reset ...",
            Out.stdout "@%lld ns (SC time)+=+ INFO: ... got it!" ],
        userEnteredExitCommand := env.simCtrlResult } := by
  simp [FabricServer.mainThread, tryCatchAll, FabricServer.mainThreadBody, bind, Run.bind,
    extCall, print, simCtrlMainThread, h]

theorem mainThread_out_of_string (env : Env) (s : State) (message : String)
    (h : env.raises Call.waitForReset = some (Exn.string message)) :
    (FabricServer.mainThread env s).out = s.out ++
      [ Out.stdout "@%lld ns (SC time) +=+ INFO: Awaiting reset ...",
        Out.stderr message, Out.stderr "Fatal Error: Program aborting." ] := by
  simp [FabricServer.mainThread, tryCatchAll, FabricServer.mainThreadBody, bind, Run.bind,
    extCall, print, h, FabricServer.mainThreadHandler, State.emit]

/-! ## Lemmas on `sc_main` -/

theorem waitForReset_not_mem_setupCalls (g : Globals) :
    Call.waitForReset ∉ setupCalls g := by
  simp [setupCalls, FabricServer.ctorCalls, FabricServer.startCalls,
    FabricServer.timeServerCalls]

theorem simCtrlMainThread_not_mem_setupCalls (g : Globals) :
    Call.simCtrlMainThread ∉ setupCalls g := by
  simp [setupCalls, FabricServer.ctorCalls, FabricServer.startCalls,
    FabricServer.timeServerCalls]

/-- When `readArgs` left `usage` at 0 and no call of the constructor or of
`start_of_simulation` raises, the rest of `sc_main` returns 0 whatever happens
inside `mainThread`; the final state is the one `mainThread` leaves, followed
by the destructor. -/
theorem sc_mainAfterArgs_of_setup_ok (env : Env) (r : ReadArgsResult) (hu : r.usage = 0)
    (hsetup : ∀ c ∈ setupCalls (globalsAfter r), env.raises c = none) :
    sc_mainAfterArgs env r =
      (0, deleteFabricServer (FabricServer.mainThread env
        { calls := setupCalls (globalsAfter r),
          out := [Out.stdout
            "+=+ INFO: FabricServer::start_of_simulation() Waiting for client connections ..."],
          userEnteredExitCommand := false,
          fabricServer := true })) := by
  have h1 : ∀ c ∈ FabricServer.ctorCalls (globalsAfter r).commandFilePath,
      env.raises c = none := fun c hc => hsetup c (by simp [setupCalls, hc])
  have h2 : ∀ c ∈ FabricServer.startCalls (globalsAfter r).domain (globalsAfter r).portNum,
      env.raises c = none := fun c hc => hsetup c (by simp [setupCalls, hc])
  simp only [sc_mainAfterArgs, hu]
  simp [tryCatchAll, sc_mainBody, bind, Run.bind, pure, Run.pure, sc_start,
    FabricServer.FabricServer, FabricServer.start_of_simulation, print,
    extCalls_ok env _ _ h1, extCalls_ok env _ _ h2, State.init, setupCalls]

/-- The same for `sc_main`, given what `readArgs` returned. -/
theorem sc_main_of_setup_ok (env : Env) (argv : List String) (r : ReadArgsResult)
    (hargs : readArgs argv Globals.init.domain Globals.init.commandFilePath = some r)
    (hu : r.usage = 0)
    (hsetup : ∀ c ∈ setupCalls (globalsAfter r), env.raises c = none) :
    sc_main env argv =
      some (0, deleteFabricServer (FabricServer.mainThread env
        { calls := setupCalls (globalsAfter r),
          out := [Out.stdout
            "+=+ INFO: FabricServer::start_of_simulation() Waiting for client connections ..."],
          userEnteredExitCommand := false,
          fabricServer := true })) := by
  unfold sc_main
  rw [hargs, Option.map_some', sc_mainAfterArgs_of_setup_ok env r hu hsetup]

theorem resetRaisesEnv_setup_ok (g : Globals) :
    ∀ c ∈ setupCalls g, resetRaisesEnv.raises c = none := by
  intro c hc
  have hne : c ≠ Call.waitForReset := by
    rintro rfl
    exact waitForReset_not_mem_setupCalls g hc
  simp [resetRaisesEnv, hne]

theorem simCtrlRaisesEnv_setup_ok (g : Globals) :
    ∀ c ∈ setupCalls g, simCtrlRaisesEnv.raises c = none := by
  intro c hc
  have hne : c ≠ Call.simCtrlMainThread := by
    rintro rfl
    exact simCtrlMainThread_not_mem_setupCalls g hc
  simp [simCtrlRaisesEnv, hne]

theorem deleteFabricServer_out (s : State) : (deleteFabricServer s).out = s.out := by
  unfold deleteFabricServer
  split <;> rfl

/-! ## The claims -/

/-- C1 (the code departs from the claim): in the run where the arguments are
accepted, set-up succeeds and `resetServer->waitForReset()` raises a `string`
inside `mainThread`, the handler of `mainThread` prints
"Fatal Error: Program aborting." and `sc_main` nevertheless returns 0, not a
non-zero value. -/
theorem C1_sc_main_returns_zero_after_mainThread_exception :
    resetRaisesEnv.raises Call.waitForReset = some (Exn.string "reset failed") ∧
    (sc_main resetRaisesEnv ["FabricServer"]).map (fun r => r.1) = some 0 ∧
    (sc_main resetRaisesEnv ["FabricServer"]).map (fun r => r.2.out) = some
      [ Out.stdout
          "+=+ INFO: FabricServer::start_of_simulation() Waiting for client connections ...",
        Out.stdout "@%lld ns (SC time) +=+ INFO: Awaiting reset ...",
        Out.stderr "reset failed", Out.stderr "Fatal Error: Program aborting." ] := by
  have hargs : readArgs ["FabricServer"] Globals.init.domain Globals.init.commandFilePath =
      some { usage := 0, domain := AF_UNIX, commandFilePath := "" } := by decide
  have hraise : resetRaisesEnv.raises Call.waitForReset = some (Exn.string "reset failed") := by
    simp [resetRaisesEnv]
  have hmain := sc_main_of_setup_ok resetRaisesEnv ["FabricServer"] _ hargs rfl
    (resetRaisesEnv_setup_ok _)
  refine ⟨hraise, ?_, ?_⟩
  · rw [hmain]
    rfl
  · rw [hmain]
    simp only [Option.map_some', deleteFabricServer_out]
    rw [mainThread_out_of_string _ _ _ hraise]
    rfl

/-- C3: in every run of `mainThread` in which no call raises, the external
calls it makes are exactly `waitForReset`, `simCtrlMainThread`, then
`disconnectFromClient` for `:remoteSession0` to `:remoteSession3` in index
order, each once; the value returned by `simCtrlMainThread` is stored in
`userEnteredExitCommand`. -/
theorem C3_mainThread_call_sequence (env : Env) (s : State)
    (h : ∀ c, env.raises c = none) :
    (FabricServer.mainThread env s).calls = s.calls ++
      [ Call.waitForReset, Call.simCtrlMainThread,
        Call.disconnectFromClient ":remoteSession0",
        Call.disconnectFromClient ":remoteSession1",
        Call.disconnectFromClient ":remoteSession2",
        Call.disconnectFromClient ":remoteSession3" ] ∧
    (FabricServer.mainThread env s).userEnteredExitCommand = env.simCtrlResult ∧
    [ Call.waitForReset, Call.simCtrlMainThread,
      Call.disconnectFromClient ":remoteSession0",
      Call.disconnectFromClient ":remoteSession1",
      Call.disconnectFromClient ":remoteSession2",
      Call.disconnectFromClient ":remoteSession3" ].Nodup := by
  rw [mainThread_no_raise env s h]
  exact ⟨rfl, rfl, by decide⟩

/-- Witness for C3: the run in which nothing raises and the operator exits. -/
theorem C3_mainThread_call_sequence_witness :
    (∀ c, quietEnv.raises c = none) ∧
    (FabricServer.mainThread quietEnv State.init).calls = State.init.calls ++
      [ Call.waitForReset, Call.simCtrlMainThread,
        Call.disconnectFromClient ":remoteSession0",
        Call.disconnectFromClient ":remoteSession1",
        Call.disconnectFromClient ":remoteSession2",
        Call.disconnectFromClient ":remoteSession3" ] ∧
    (FabricServer.mainThread quietEnv State.init).userEnteredExitCommand = true :=
  ⟨fun _ => rfl,
    (C3_mainThread_call_sequence quietEnv State.init (fun _ => rfl)).1,
    (C3_mainThread_call_sequence quietEnv State.init (fun _ => rfl)).2.1⟩

/-- C4: for every base port `portNum` and every `domain`, when no
`connectToClient` or `listenForAllClients` call raises,
`start_of_simulation` returns normally having called `connectToClient` once
per session index `i = 0, 1, 2, 3`, in that order, with session name
`:remoteSession<i>`, the configured domain and the `unsigned` value of
`portNum + i`, and then `listenForAllClients`; the four ports are pairwise
distinct, and equal `portNum + i` exactly unless the `unsigned` sum wraps. -/
theorem C4_start_of_simulation_calls (env : Env) (g : Globals) (s : State)
    (hconnect : ∀ session domain port,
      env.raises (Call.connectToClient session domain port) = none)
    (hlisten : env.raises Call.listenForAllClients = none) :
    (FabricServer.start_of_simulation env g s).1 = Except.ok () ∧
    (FabricServer.start_of_simulation env g s).2.calls = s.calls ++
      ((List.range NUMBER_OF_CLIENTS).map (fun i =>
        Call.connectToClient (":remoteSession" ++ toString i) g.domain
          ((g.portNum + i) % UINT_MOD)) ++ [Call.listenForAllClients]) ∧
    (∀ i j, i < NUMBER_OF_CLIENTS → j < NUMBER_OF_CLIENTS → i ≠ j →
      (g.portNum + i) % UINT_MOD ≠ (g.portNum + j) % UINT_MOD) ∧
    (∀ i, g.portNum + i < UINT_MOD → (g.portNum + i) % UINT_MOD = g.portNum + i) := by
  have hall : ∀ c ∈ FabricServer.startCalls g.domain g.portNum, env.raises c = none := by
    intro c hc
    simp only [FabricServer.startCalls, List.mem_cons, List.mem_singleton,
      List.not_mem_nil, or_false] at hc
    rcases hc with rfl | rfl | rfl | rfl | rfl
    · exact hconnect _ _ _
    · exact hconnect _ _ _
    · exact hconnect _ _ _
    · exact hconnect _ _ _
    · exact hlisten
  have hrun : FabricServer.start_of_simulation env g s =
      (Except.ok (), { s with
        calls := s.calls ++ FabricServer.startCalls g.domain g.portNum,
        out := s.out ++ [Out.stdout
          "+=+ INFO: FabricServer::start_of_simulation() Waiting for client connections ..."] }) := by
    simp [FabricServer.start_of_simulation, bind, Run.bind, print, extCalls_ok env _ _ hall]
  refine ⟨by rw [hrun], ?_, ?_, ?_⟩
  · rw [hrun]
    rfl
  · intro i j hi hj hij
    simp only [NUMBER_OF_CLIENTS, UINT_MOD] at *
    omega
  · intro i hi
    exact Nat.mod_eq_of_lt hi

/-- Witness for C4: the run in which nothing raises, from the initial globals
(`domain = AF_UNIX`, `portNum = 50101`). -/
theorem C4_start_of_simulation_calls_witness :
    (∀ session domain port,
      quietEnv.raises (Call.connectToClient session domain port) = none) ∧
    quietEnv.raises Call.listenForAllClients = none ∧
    (FabricServer.start_of_simulation quietEnv Globals.init State.init).2.calls =
      [ Call.connectToClient ":remoteSession0" 1 50101,
        Call.connectToClient ":remoteSession1" 1 50102,
        Call.connectToClient ":remoteSession2" 1 50103,
        Call.connectToClient ":remoteSession3" 1 50104,
        Call.listenForAllClients ] :=
  ⟨fun _ _ _ => rfl, rfl,
    (C4_start_of_simulation_calls quietEnv Globals.init State.init
      (fun _ _ _ => rfl) rfl).2.1.trans (by decide)⟩

/-- C5, as stated, fails: the argument `--cmdFile` (no `=`, no value) is of
none of the three forms the claim names, yet `readArgs` returns 0 and
`sc_main` goes on to construct the `FabricServer` and returns 0. -/
theorem C5_counterexample_cmdFile_without_value :
    claimedForm "--cmdFile" = false ∧
    (readArgs ["FabricServer", "--cmdFile"] Globals.init.domain
      Globals.init.commandFilePath).map (fun r => r.usage) = some 0 ∧
    (sc_main quietEnv ["FabricServer", "--cmdFile"]).map (fun r => r.1) = some 0 ∧
    (sc_main quietEnv ["FabricServer", "--cmdFile"]).map (fun r => r.2.fabricServer) =
      some true := by
  have hargs : readArgs ["FabricServer", "--cmdFile"] Globals.init.domain
      Globals.init.commandFilePath =
      some { usage := 0, domain := AF_UNIX, commandFilePath := "" } := by decide
  have hmain := sc_main_of_setup_ok quietEnv ["FabricServer", "--cmdFile"] _ hargs rfl
    (fun _ _ => rfl)
  refine ⟨by decide, by rw [hargs]; rfl, ?_, ?_⟩
  · rw [hmain]
    rfl
  · rw [hmain, mainThread_no_raise quietEnv _ (fun _ => rfl)]
    rfl

/-- C5 (amended): for every argument list whose arguments after `argv[0]` all
occupy fewer than `BUFSIZ` `char`s and in which some argument after
`argv[0]` is not of an accepted form (`--cmdFile` alone, `--cmdFile=` followed
by anything, or `--domain=` followed by optional white space, `AF_INET` or
`AF_UNIX`, and then the end of the argument or white space), `readArgs`
returns non-zero and `sc_main` returns -1 without constructing the
`FabricServer` and without making any external call. -/
theorem C5_rejected_argument_aborts (env : Env) (argv : List String) (a : String)
    (hfit : ∀ b ∈ argv.drop 1, b.utf8ByteSize < BUFSIZ)
    (hmem : a ∈ argv.drop 1) (hform : acceptedForm a = false) :
    (∀ domain path, ∃ r, readArgs argv domain path = some r ∧ r.usage ≠ 0) ∧
    ∃ s, sc_main env argv = some (-1, s) ∧ s.calls = [] ∧ s.fabricServer = false := by
  have hscan : scanAccepts a = false := by
    cases hsa : scanAccepts a with
    | false => rfl
    | true => rw [acceptedForm_of_scanAccepts a hsa] at hform; cases hform
  have husage : ∀ domain path, ∃ r, readArgs argv domain path = some r ∧ r.usage = 1 :=
    fun domain path => readArgsLoop_reject _ _ hfit rfl ⟨a, hmem, hscan⟩
  refine ⟨fun domain path => ?_, ?_⟩
  · obtain ⟨r, hr, hu⟩ := husage domain path
    exact ⟨r, hr, by rw [hu]; decide⟩
  · obtain ⟨r, hr, hu⟩ := husage Globals.init.domain Globals.init.commandFilePath
    refine ⟨State.init.emit (usageText.map Out.stdout), ?_, rfl, rfl⟩
    unfold sc_main
    rw [hr, Option.map_some']
    simp [sc_mainAfterArgs, hu]

/-- Witness for C5 (amended): a valid `--domain` argument followed by the
unknown `--verbose`. -/
theorem C5_rejected_argument_aborts_witness :
    (∀ b ∈ ["FabricServer", "--domain=AF_INET", "--verbose"].drop 1,
      b.utf8ByteSize < BUFSIZ) ∧
    "--verbose" ∈ ["FabricServer", "--domain=AF_INET", "--verbose"].drop 1 ∧
    acceptedForm "--verbose" = false ∧
    ∃ s, sc_main quietEnv ["FabricServer", "--domain=AF_INET", "--verbose"] = some (-1, s) ∧
      s.calls = [] ∧ s.fabricServer = false :=
  ⟨by decide, by decide, by decide,
    (C5_rejected_argument_aborts quietEnv ["FabricServer", "--domain=AF_INET", "--verbose"]
      "--verbose" (by decide) (by decide) (by decide)).2⟩

/-- C6: once the constructor has returned, for every client index `i` the
gateway port `txConfigPorts[i]` is connected to the conduit `:rxConfigPort<i>`
and to no other name, `rxConfigPorts[i]` is connected to `:txConfigPort<i>` and
to no other name, those two conduit names are bound to no other port, and
each of the two connections is made exactly once. -/
theorem C6_config_plane_wiring (env : Env) (path : String)
    (h : (FabricServer.FabricServer env path State.init).1 = Except.ok ()) :
    (∀ i, i < NUMBER_OF_CLIENTS → ∀ name,
      (Call.uvmc_connect (Port.txConfigPorts i) name ∈
          (FabricServer.FabricServer env path State.init).2.calls ↔
        name = ":rxConfigPort" ++ toString i) ∧
      (Call.uvmc_connect (Port.rxConfigPorts i) name ∈
          (FabricServer.FabricServer env path State.init).2.calls ↔
        name = ":txConfigPort" ++ toString i)) ∧
    (∀ i, i < NUMBER_OF_CLIENTS → ∀ port,
      (Call.uvmc_connect port (":rxConfigPort" ++ toString i) ∈
          (FabricServer.FabricServer env path State.init).2.calls ↔
        port = Port.txConfigPorts i) ∧
      (Call.uvmc_connect port (":txConfigPort" ++ toString i) ∈
          (FabricServer.FabricServer env path State.init).2.calls ↔
        port = Port.rxConfigPorts i)) ∧
    (∀ i, i < NUMBER_OF_CLIENTS →
      (FabricServer.FabricServer env path State.init).2.calls.count
          (Call.uvmc_connect (Port.txConfigPorts i) (":rxConfigPort" ++ toString i)) = 1 ∧
      (FabricServer.FabricServer env path State.init).2.calls.count
          (Call.uvmc_connect (Port.rxConfigPorts i) (":txConfigPort" ++ toString i)) = 1) := by
  rw [ctor_calls_of_ok env path h]
  have n0 : toString (0 : Nat) = "0" := rfl
  have n1 : toString (1 : Nat) = "1" := rfl
  have n2 : toString (2 : Nat) = "2" := rfl
  have n3 : toString (3 : Nat) = "3" := rfl
  refine ⟨?_, ?_, ?_⟩
  · intro i hi name
    simp only [NUMBER_OF_CLIENTS] at hi
    interval_cases i <;>
    simp [FabricServer.ctorCalls, timeServerCalls_eq, n0, n1, n2, n3]
  · intro i hi port
    simp only [NUMBER_OF_CLIENTS] at hi
    interval_cases i <;>
    simp [FabricServer.ctorCalls, timeServerCalls_eq, n0, n1, n2, n3]
  · intro i hi
    simp only [NUMBER_OF_CLIENTS] at hi
    rw [count_ctorCalls path _ (by simp), count_ctorCalls path _ (by simp)]
    interval_cases i <;> decide

/-- Witness for C6: the run in which nothing raises; client 2. -/
theorem C6_config_plane_wiring_witness :
    (FabricServer.FabricServer quietEnv "" State.init).1 = Except.ok () ∧
    Call.uvmc_connect (Port.txConfigPorts 2) ":rxConfigPort2" ∈
      (FabricServer.FabricServer quietEnv "" State.init).2.calls ∧
    Call.uvmc_connect (Port.rxConfigPorts 2) ":txConfigPort2" ∈
      (FabricServer.FabricServer quietEnv "" State.init).2.calls :=
  ⟨ctor_ok_of_no_raise quietEnv "" (fun _ => rfl),
    (((C6_config_plane_wiring quietEnv ""
      (ctor_ok_of_no_raise quietEnv "" (fun _ => rfl))).1 2 (by decide)
        ":rxConfigPort2").1).2 rfl,
    (((C6_config_plane_wiring quietEnv ""
      (ctor_ok_of_no_raise quietEnv "" (fun _ => rfl))).1 2 (by decide)
        ":txConfigPort2").2).2 rfl⟩

/-- C7: once the constructor has returned, for every switch port index
`p < NUMBER_OF_ETH_PORTS` both `analysisRxPorts[p]` and `analysisTxPorts[p]`
have been bound exactly once to `vsiEthMonitor` and to nothing else; exactly
one `VsiEthMonitor` has been created; and the only `enableMonitoring` call
made on the switch is a single `enableMonitoring(true)`. -/
theorem C7_monitor_taps (env : Env) (path : String)
    (h : (FabricServer.FabricServer env path State.init).1 = Except.ok ()) :
    (∀ p, p < NUMBER_OF_ETH_PORTS →
      (FabricServer.FabricServer env path State.init).2.calls.count
          (Call.analysisRxPortsBind p Component.vsiEthMonitor) = 1 ∧
      (FabricServer.FabricServer env path State.init).2.calls.count
          (Call.analysisTxPortsBind p Component.vsiEthMonitor) = 1) ∧
    (∀ p target,
      (Call.analysisRxPortsBind p target ∈
          (FabricServer.FabricServer env path State.init).2.calls →
        target = Component.vsiEthMonitor) ∧
      (Call.analysisTxPortsBind p target ∈
          (FabricServer.FabricServer env path State.init).2.calls →
        target = Component.vsiEthMonitor)) ∧
    (∀ name, Call.newVsiEthMonitor name ∈
        (FabricServer.FabricServer env path State.init).2.calls →
      name = "VsiEthMonitor") ∧
    (FabricServer.FabricServer env path State.init).2.calls.count
        (Call.newVsiEthMonitor "VsiEthMonitor") = 1 ∧
    (FabricServer.FabricServer env path State.init).2.calls.count
        (Call.enableMonitoring true) = 1 ∧
    Call.enableMonitoring false ∉ (FabricServer.FabricServer env path State.init).2.calls := by
  rw [ctor_calls_of_ok env path h]
  refine ⟨?_, ?_, ?_, ?_, ?_, ?_⟩
  · intro p hp
    simp only [NUMBER_OF_ETH_PORTS] at hp
    rw [count_ctorCalls path _ (by simp), count_ctorCalls path _ (by simp)]
    interval_cases p <;> decide
  · intro p target
    constructor <;> simp [FabricServer.ctorCalls, timeServerCalls_eq] <;> tauto
  · intro name
    simp [FabricServer.ctorCalls, timeServerCalls_eq]
  · rw [count_ctorCalls path _ (by simp)]
    decide
  · rw [count_ctorCalls path _ (by simp)]
    decide
  · simp [FabricServer.ctorCalls, timeServerCalls_eq]

/-- Witness for C7: the run in which nothing raises; switch port 3. -/
theorem C7_monitor_taps_witness :
    (FabricServer.FabricServer quietEnv "" State.init).1 = Except.ok () ∧
    (FabricServer.FabricServer quietEnv "" State.init).2.calls.count
      (Call.analysisRxPortsBind 3 Component.vsiEthMonitor) = 1 ∧
    (FabricServer.FabricServer quietEnv "" State.init).2.calls.count
      (Call.analysisTxPortsBind 3 Component.vsiEthMonitor) = 1 :=
  ⟨ctor_ok_of_no_raise quietEnv "" (fun _ => rfl),
    ((C7_monitor_taps quietEnv "" (ctor_ok_of_no_raise quietEnv "" (fun _ => rfl))).1 3
      (by decide)).1,
    ((C7_monitor_taps quietEnv "" (ctor_ok_of_no_raise quietEnv "" (fun _ => rfl))).1 3
      (by decide)).2⟩

/-- C8 (the code departs from the claim): the value made of `BUFSIZ` letters
`a` is non-empty, free of white space and `BUFSIZ` `char`s long, yet on the single argument
`--cmdFile=` followed by it (and likewise `--domain=` followed by it) the scan
writes `BUFSIZ` characters and a NUL into `char argVal[BUFSIZ]`: `readArgs`
overruns the buffer and has no defined result, instead of returning 0 with
`commandFilePath` set to the value. -/
theorem C8_long_value_overruns_argVal :
    lettersA BUFSIZ ≠ "" ∧
    (∀ c ∈ (lettersA BUFSIZ).data, isspace c = false) ∧
    (lettersA BUFSIZ).utf8ByteSize = BUFSIZ ∧
    readArgs ["FabricServer", "--cmdFile=" ++ lettersA BUFSIZ] Globals.init.domain
      Globals.init.commandFilePath = none ∧
    readArgs ["FabricServer", "--domain=" ++ lettersA BUFSIZ] Globals.init.domain
      Globals.init.commandFilePath = none :=
  ⟨lettersA_ne_empty BUFSIZ (by decide), lettersA_no_space BUFSIZ,
    lettersA_utf8ByteSize BUFSIZ,
    readArgs_single_argument_overrun "FabricServer" (lettersA BUFSIZ) _ _
      (lettersA_ne_empty BUFSIZ (by decide)) (lettersA_no_space BUFSIZ)
      (Nat.le_of_eq (lettersA_utf8ByteSize BUFSIZ).symm)⟩

/-- C9 (the code departs from the claim): started with no argument at all,
`readArgs` returns 0 and every `connectToClient` call receives
`domain = AF_UNIX`, the initial value of the global, which differs from
`AF_INET`, the default the usage text of `readArgs` documents. -/
theorem C9_default_domain_is_AF_UNIX :
    (readArgs ["FabricServer"] Globals.init.domain Globals.init.commandFilePath).map
      (fun r => r.usage) = some 0 ∧
    (sc_main quietEnv ["FabricServer"]).map (fun r => connectDomains r.2.calls) =
      some [AF_UNIX, AF_UNIX, AF_UNIX, AF_UNIX] ∧
    AF_UNIX ≠ AF_INET ∧
    "    --domain=AF_INET | AF_UNIX    (default: AF_INET)" ∈ usageText := by
  have hargs : readArgs ["FabricServer"] Globals.init.domain Globals.init.commandFilePath =
      some { usage := 0, domain := AF_UNIX, commandFilePath := "" } := by decide
  have hmain := sc_main_of_setup_ok quietEnv ["FabricServer"] _ hargs rfl (fun _ _ => rfl)
  refine ⟨by rw [hargs]; rfl, ?_, by decide, by decide⟩
  rw [hmain, mainThread_no_raise quietEnv _ (fun _ => rfl)]
  decide

/-- C10: once the constructor has returned, for every client index
`i < NUMBER_OF_CLIENTS` the name passed to the `i`-th `XlSyscTlmTimeServer` is
`"timeServer"` with its first `i` characters dropped, and no other name is
passed to it; the names are `timeServer`, `imeServer`, `meServer`, `eServer`;
each is non-empty, none contains a decimal digit (so none contains the client
index), and they are pairwise distinct. -/
theorem C10_timeServer_names (env : Env) (path : String)
    (h : (FabricServer.FabricServer env path State.init).1 = Except.ok ()) :
    (∀ i, i < NUMBER_OF_CLIENTS → ∀ name,
      (Call.newXlSyscTlmTimeServer i name ∈
          (FabricServer.FabricServer env path State.init).2.calls ↔
        name = "timeServer".drop i)) ∧
    (∀ i, i < NUMBER_OF_CLIENTS →
      ["timeServer", "imeServer", "meServer", "eServer"][i]? = some ("timeServer".drop i) ∧
      "timeServer".drop i ≠ "" ∧
      (∀ c ∈ ("timeServer".drop i).data, c.isDigit = false)) ∧
    (∀ i j, i < NUMBER_OF_CLIENTS → j < NUMBER_OF_CLIENTS → i ≠ j →
      "timeServer".drop i ≠ "timeServer".drop j) := by
  rw [ctor_calls_of_ok env path h]
  have d0 : "timeServer".drop 0 = "timeServer" := by decide
  have d1 : "timeServer".drop 1 = "imeServer" := by decide
  have d2 : "timeServer".drop 2 = "meServer" := by decide
  have d3 : "timeServer".drop 3 = "eServer" := by decide
  refine ⟨?_, ?_, ?_⟩
  · intro i hi name
    simp only [NUMBER_OF_CLIENTS] at hi
    interval_cases i <;>
    simp [FabricServer.ctorCalls, timeServerCalls_eq, d0, d1, d2, d3]
  · intro i hi
    simp only [NUMBER_OF_CLIENTS] at hi
    interval_cases i <;> decide
  · intro i j hi hj
    simp only [NUMBER_OF_CLIENTS] at hi hj
    interval_cases i <;> interval_cases j <;> decide

/-- Witness for C10: the run in which nothing raises; client 1 gets the name
`imeServer`. -/
theorem C10_timeServer_names_witness :
    (FabricServer.FabricServer quietEnv "" State.init).1 = Except.ok () ∧
    Call.newXlSyscTlmTimeServer 1 "imeServer" ∈
      (FabricServer.FabricServer quietEnv "" State.init).2.calls :=
  ⟨ctor_ok_of_no_raise quietEnv "" (fun _ => rfl),
    ((C10_timeServer_names quietEnv "" (ctor_ok_of_no_raise quietEnv "" (fun _ => rfl))).1 1
      (by decide) "imeServer").2 (by decide)⟩

end Server
